import Mathlib

/-!
Shallow embedding of the embassy-stm32-wpan transport layer
(src/embassy-stm32-wpan/src/evt.rs and src/embassy-stm32-wpan/src/lib.rs).

Bytes are modelled as Nat with explicit bounds or explicit % 256 where u8
truncation matters; shared memory is a function Nat -> Nat from byte
addresses to byte values; volatile accesses are logged as (address, width)
pairs so that single-read claims are statements about the log.
-/

/-! ## Packed record layouts (repr(C, packed): fields laid out in order, no padding) -/

/-- Size of a packed struct: the sum of its field sizes (repr(C, packed) adds no padding). -/
def structSize (sizes : List Nat) : Nat := sizes.sum

/-- Byte offsets of the fields of a packed struct with the given field sizes:
each field starts where the previous one ends. -/
def fieldOffsets : List Nat → List Nat
  | [] => []
  | s :: rest => 0 :: (fieldOffsets rest).map (fun o => s + o)

/-- Field sizes of CsEvt: status (u8), num_cmd (u8), cmd_code (u16). -/
def CsEvt.fieldSizes : List Nat := [1, 1, 2]

/-- Field sizes of CcEvt: num_cmd (u8), cmd_code (u16), payload ([u8; 1]). -/
def CcEvt.fieldSizes : List Nat := [1, 2, 1]

/-- Field sizes of AsynchEvt: sub_evt_code (u16), payload ([u8; 1]). -/
def AsynchEvt.fieldSizes : List Nat := [2, 1]

/-- Field sizes of Evt: evt_code (u8), payload_len (u8), payload ([u8; 1]). -/
def Evt.fieldSizes : List Nat := [1, 1, 1]

/-- Field sizes of EvtSerial: kind (u8), evt (Evt). -/
def EvtSerial.fieldSizes : List Nat := [1, structSize Evt.fieldSizes]

/-- Field sizes of EvtStub: kind (u8), evt_code (u8). -/
def EvtStub.fieldSizes : List Nat := [1, 1]

/-- Size in bytes of the EvtStub struct, the quantity read volatile by EvtBox::stub. -/
def EVT_STUB_SIZE : Nat := structSize EvtStub.fieldSizes

/-! ## Constants from lib.rs -/

/-- Modelled from the spec: PacketHeader is the intrusive queue node, two raw
cross-core addresses (next, prev); the LinkedListNode type itself is outside
src/. On the 32-bit target a pointer is 4 bytes, so the packet header is 8
bytes. All layout claims below are relative to this offset. -/
def TL_PACKET_HEADER_SIZE : Nat := 8

/-- TL_EVT_HEADER_SIZE from lib.rs: kind + evt_code + payload_len. -/
def TL_EVT_HEADER_SIZE : Nat := 3

/-- TL_CS_EVT_SIZE from lib.rs: size_of::<CsEvt>(). -/
def TL_CS_EVT_SIZE : Nat := structSize CsEvt.fieldSizes

/-- Capacity of the CS_BUFFER static from lib.rs:
TL_PACKET_HEADER_SIZE + TL_EVT_HEADER_SIZE + TL_CS_EVT_SIZE. -/
def CS_BUFFER_SIZE : Nat := TL_PACKET_HEADER_SIZE + TL_EVT_HEADER_SIZE + TL_CS_EVT_SIZE

/-- CFG_TLBLE_EVT_QUEUE_LENGTH from lib.rs. -/
def CFG_TLBLE_EVT_QUEUE_LENGTH : Nat := 5

/-- CFG_TLBLE_MOST_EVENT_PAYLOAD_SIZE from lib.rs. -/
def CFG_TLBLE_MOST_EVENT_PAYLOAD_SIZE : Nat := 255

/-- TL_BLE_EVENT_FRAME_SIZE from lib.rs. -/
def TL_BLE_EVENT_FRAME_SIZE : Nat := TL_EVT_HEADER_SIZE + CFG_TLBLE_MOST_EVENT_PAYLOAD_SIZE

/-- divc from lib.rs: ceiling division ((x) + (y) - 1) / (y). -/
def divc (x y : Nat) : Nat := (x + y - 1) / y

/-- POOL_SIZE from lib.rs. -/
def POOL_SIZE : Nat :=
  CFG_TLBLE_EVT_QUEUE_LENGTH * 4 * divc (TL_PACKET_HEADER_SIZE + TL_BLE_EVENT_FRAME_SIZE) 4

/-! ## Shared memory, views, volatile access log -/

/-- Shared memory: byte value at each byte address. -/
abbrev Mem : Type := Nat → Nat

/-- The value returned by slice::from_raw_parts: a base address and a length.
No bytes are copied when the view is formed. -/
structure ByteView where
  base : Nat
  len : Nat
  deriving DecidableEq

/-- Log of volatile reads performed by an operation: (address, width in bytes). -/
abbrev VolReads : Type := List (Nat × Nat)

/-- The EvtStub value returned by EvtBox::stub (fields kind, evt_code). -/
structure EvtStub where
  kind : Nat
  evt_code : Nat
  deriving DecidableEq

/-! ## EvtBox (evt.rs) -/

/-- EvtBox from evt.rs: a smart pointer holding the raw address of an EvtPacket
buffer in shared memory. -/
structure EvtBox where
  ptr : Nat
  deriving DecidableEq

/-- EvtBox::new from evt.rs: wraps the raw buffer address. -/
def EvtBox.new (ptr : Nat) : EvtBox := ⟨ptr⟩

/-- Address of the kind byte of the packet at ptr: the EvtSerial starts right
after the packet header and its first field is kind. -/
def kindAddr (ptr : Nat) : Nat := ptr + TL_PACKET_HEADER_SIZE

/-- Address of the payload_len byte: kind (1) then evt_code (1) precede it. -/
def payloadLenAddr (ptr : Nat) : Nat := ptr + TL_PACKET_HEADER_SIZE + 2

/-- Address of the first payload byte: it follows kind, evt_code, payload_len. -/
def payloadAddr (ptr : Nat) : Nat := ptr + TL_PACKET_HEADER_SIZE + 3

/-- EvtBox::stub from evt.rs: one ptr::read_volatile of the EvtStub struct
(two bytes: kind then evt_code) at the start of the EvtSerial. -/
def EvtBox.stub (b : EvtBox) (mem : Mem) : EvtStub × VolReads :=
  (⟨mem (kindAddr b.ptr), mem (kindAddr b.ptr + 1)⟩, [(kindAddr b.ptr, EVT_STUB_SIZE)])

/-- EvtBox::payload from evt.rs: one ptr::read_volatile of the payload_len byte,
then slice::from_raw_parts over exactly that many bytes from the payload
offset. No bounds check is performed against the buffer capacity. -/
def EvtBox.payload (b : EvtBox) (mem : Mem) : ByteView × VolReads :=
  let payload_len := mem (payloadLenAddr b.ptr)
  (⟨payloadAddr b.ptr, payload_len⟩, [(payloadLenAddr b.ptr, 1)])

/-! ## Memory manager and handle destruction -/

/-- State of the buffer pool manager: the arguments of the drop_event_packet
calls made so far, in call order. -/
structure MMState where
  reclaimed : List Nat
  deriving DecidableEq

/-- Modelled from the spec: mm::MemoryManager::drop_event_packet (the mm module
is outside src/) returns the buffer at ptr to the free queue and, per spec
4.2 and 4.3, is infallible and never panics; it does not inspect the
buffer's payload bytes, so the memory contents are ignored. -/
def MemoryManager.drop_event_packet (s : MMState) (ptr : Nat) (_mem : Mem) : MMState :=
  ⟨s.reclaimed ++ [ptr]⟩

/-- impl Drop for EvtBox from evt.rs: a single call to
MemoryManager::drop_event_packet(self.ptr) (the trace! line is logging only). -/
def EvtBox.drop (s : MMState) (b : EvtBox) (mem : Mem) : MMState :=
  MemoryManager.drop_event_packet s b.ptr mem

/-- One handle lifetime: EvtBox::new followed by the Drop impl (Rust runs Drop
exactly once per constructed value). -/
def EvtBox.lifecycle (s : MMState) (ptr : Nat) (mem : Mem) : MMState :=
  EvtBox.drop s (EvtBox.new ptr) mem

/-! ## CcEvt (evt.rs) -/

/-- CcEvt from evt.rs: num_cmd (u8), cmd_code (u16), payload ([u8; 1], a single
byte held in payload0). -/
structure CcEvt where
  num_cmd : Nat
  cmd_code : Nat
  payload0 : Nat
  deriving DecidableEq

/-- The in-memory bytes of a packed CcEvt on the little-endian target:
num_cmd, low byte of cmd_code, high byte of cmd_code, payload[0]. -/
def CcEvt.serialize (cc : CcEvt) : List Nat :=
  [cc.num_cmd % 256, cc.cmd_code % 256, cc.cmd_code / 256 % 256, cc.payload0 % 256]

/-- Reinterpreting the first size_of::<CcEvt>() bytes of a buffer as a CcEvt. -/
def CcEvt.deserialize (buf : List Nat) : CcEvt :=
  ⟨buf.getD 0 0, buf.getD 1 0 + 256 * buf.getD 2 0, buf.getD 3 0⟩

/-- CcEvt::write from evt.rs: assert!(buf.len() >= size_of::<CcEvt>()) — the
none case models the assert panic — then ptr::copy of the record's bytes
into the front of buf, leaving the rest of buf unchanged. -/
def CcEvt.write (cc : CcEvt) (buf : List Nat) : Option (List Nat) :=
  if structSize CcEvt.fieldSizes ≤ buf.length then
    some (cc.serialize ++ buf.drop (structSize CcEvt.fieldSizes))
  else none

/-! ## Command records -/

/-- Modelled from the spec: the command record (cmd module, outside src/) is a
16-bit opcode, a length byte, then the payload bytes, little-endian, per
spec 3 (command: opcode, length, variable payload) and 6 (submit command
taking an opcode, payload bytes, and length). -/
def encodeCmd (opcode : Nat) (p : List Nat) : List Nat :=
  opcode % 256 :: opcode / 256 % 256 :: p.length % 256 :: p.map (fun b => b % 256)

/-- Modelled from the spec: decoding a command record buffer back into
(opcode, declared length, payload of exactly that length). -/
def decodeCmd (buf : List Nat) : Nat × Nat × List Nat :=
  (buf.getD 0 0 + 256 * buf.getD 1 0, buf.getD 2 0, (buf.drop 3).take (buf.getD 2 0))

/-! ## TlMbox::init step trace (lib.rs) -/

/-- The per-subsystem shared tables of lib.rs. -/
inductive TableId where
  | deviceInfo
  | ble
  | thread
  | sys
  | memManager
  | traces
  | mac802_15_4
  deriving DecidableEq

/-- One observable step of TlMbox::init. writeRefTable carries, slot by slot in
RefTable field order, which static table's address was stored in that slot. -/
inductive InitStep where
  | writeRefTable (dir : List (TableId × TableId))
  | zeroTable (t : TableId)
  | zeroEvtPool
  | zeroSysSpareEvtBuf
  | zeroBleSpareEvtBuf
  | zeroBleCmdBuffer
  | zeroHciAclDataBuffer
  | zeroCsBuffer
  | fence
  | ipccEnable
  | sysNew
  | bleNew
  | mmNew
  | unpendRx
  | unpendTx
  | enableRx
  | enableTx
  | stateReset
  deriving DecidableEq

/-- The directory written into TL_REF_TABLE by init: each RefTable slot receives
the address of the static table of the same subsystem (device_info_table gets
TL_DEVICE_INFO_TABLE.as_ptr(), and so on). -/
def refTableDir : List (TableId × TableId) :=
  [(TableId.deviceInfo, TableId.deviceInfo), (TableId.ble, TableId.ble),
   (TableId.thread, TableId.thread), (TableId.sys, TableId.sys),
   (TableId.memManager, TableId.memManager), (TableId.traces, TableId.traces),
   (TableId.mac802_15_4, TableId.mac802_15_4)]

/-- The step sequence of TlMbox::init from lib.rs, in program order: volatile
write of the RefTable directory first, then the volatile zeroing writes of
the seven subsystem tables and the six shared buffers, then
compiler_fence(SeqCst), then Ipcc::enable, subsystem constructors, interrupt
unpend/enable, and STATE.reset(). -/
def tlMboxInit : List InitStep :=
  [InitStep.writeRefTable refTableDir,
   InitStep.zeroTable TableId.sys, InitStep.zeroTable TableId.deviceInfo,
   InitStep.zeroTable TableId.ble, InitStep.zeroTable TableId.thread,
   InitStep.zeroTable TableId.memManager, InitStep.zeroTable TableId.traces,
   InitStep.zeroTable TableId.mac802_15_4,
   InitStep.zeroEvtPool, InitStep.zeroSysSpareEvtBuf, InitStep.zeroBleSpareEvtBuf,
   InitStep.zeroBleCmdBuffer, InitStep.zeroHciAclDataBuffer, InitStep.zeroCsBuffer,
   InitStep.fence, InitStep.ipccEnable,
   InitStep.sysNew, InitStep.bleNew, InitStep.mmNew,
   InitStep.unpendRx, InitStep.unpendTx, InitStep.enableRx, InitStep.enableTx,
   InitStep.stateReset]

/-- Is the step a zeroing write of a table or shared buffer? -/
def isZeroStep : InitStep → Bool
  | InitStep.zeroTable _ => true
  | InitStep.zeroEvtPool => true
  | InitStep.zeroSysSpareEvtBuf => true
  | InitStep.zeroBleSpareEvtBuf => true
  | InitStep.zeroBleCmdBuffer => true
  | InitStep.zeroHciAclDataBuffer => true
  | InitStep.zeroCsBuffer => true
  | _ => false

/-- Is the step the write of the top-level reference table directory? -/
def isWriteRefStep : InitStep → Bool
  | InitStep.writeRefTable _ => true
  | _ => false

/-- Is the step the memory fence? -/
def isFenceStep : InitStep → Bool
  | InitStep.fence => true
  | _ => false

/-- Is the step one that arms the cross-core doorbell (IPCC peripheral enable or
interrupt enable)? -/
def isEnableStep : InitStep → Bool
  | InitStep.ipccEnable => true
  | InitStep.enableRx => true
  | InitStep.enableTx => true
  | _ => false

/-- The bounds-checking behaviour C3 asserts of the code, instantiated at the
CS buffer: for every memory contents, the view payload() returns never
extends past the buffer's capacity (a declared length that would overrun is
surfaced as a failure or truncated, never returned as if valid). -/
def payloadRejectsOverrun : Prop :=
  ∀ mem : Mem, ((EvtBox.new 0).payload mem).1.base + ((EvtBox.new 0).payload mem).1.len
    ≤ CS_BUFFER_SIZE

/-! ## Helper lemmas -/

/-- Ceiling division by 4 rounds up: 4 * divc x 4 covers x. -/
theorem four_mul_divc_ge (x : Nat) : 4 * divc x 4 ≥ x := by
  unfold divc
  omega

/-- The pool bound holds whatever the packet header size is: rounding each
frame up to a multiple of 4 never loses capacity. -/
theorem poolBound_any_header (h : Nat) :
    CFG_TLBLE_EVT_QUEUE_LENGTH * 4 * divc (h + TL_BLE_EVENT_FRAME_SIZE) 4 ≥
    CFG_TLBLE_EVT_QUEUE_LENGTH * (h + TL_EVT_HEADER_SIZE + CFG_TLBLE_MOST_EVENT_PAYLOAD_SIZE) := by
  have hx := four_mul_divc_ge (h + TL_BLE_EVENT_FRAME_SIZE)
  have he : TL_BLE_EVENT_FRAME_SIZE = TL_EVT_HEADER_SIZE + CFG_TLBLE_MOST_EVENT_PAYLOAD_SIZE := rfl
  have hq : CFG_TLBLE_EVT_QUEUE_LENGTH = 5 := rfl
  rw [Nat.mul_assoc]
  rw [hq] at *
  omega

/-! ## Claim theorems -/

/-- C1 (confirmed): destroying an EvtBox handle performs exactly one call into
the memory manager, drop_event_packet, with the handle's buffer pointer as
argument; the call is total (infallible, no panic) and its effect does not
depend on the buffer's contents; a construction via EvtBox::new followed by
its Drop reclaims the buffer exactly once. -/
theorem evtBox_lifecycle_reclaims_once (s : MMState) (ptr : Nat) (mem : Mem) :
    (EvtBox.lifecycle s ptr mem).reclaimed = s.reclaimed ++ [ptr] ∧
    ∀ mem2 : Mem, EvtBox.drop s (EvtBox.new ptr) mem = EvtBox.drop s (EvtBox.new ptr) mem2 :=
  ⟨rfl, fun _ => rfl⟩

/-- C2 (confirmed): for a record whose payload_len byte holds L (L at most 255),
payload() performs exactly one volatile read, of the one payload_len byte,
and returns a view of exactly L bytes starting at the fixed payload offset,
regardless of the 1-byte static size of the declared payload array. -/
theorem evtBox_payload_spec (mem : Mem) (ptr L : Nat)
    (hL : mem (payloadLenAddr ptr) = L) (hmax : L ≤ 255) :
    ((EvtBox.new ptr).payload mem).1 = ⟨payloadAddr ptr, L⟩ ∧
    ((EvtBox.new ptr).payload mem).2 = [(payloadLenAddr ptr, 1)] := by
  subst hL
  exact ⟨rfl, rfl⟩

/-- Witness for C2 at mem constantly 7, ptr 0: the declared length 7 is within
bounds and the returned view is 7 bytes at the payload offset. -/
theorem evtBox_payload_spec_witness :
    (fun _ => 7 : Mem) (payloadLenAddr 0) = 7 ∧ (7 : Nat) ≤ 255 ∧
    ((EvtBox.new 0).payload (fun _ => 7)).1 = ⟨payloadAddr 0, 7⟩ ∧
    ((EvtBox.new 0).payload (fun _ => 7)).2 = [(payloadLenAddr 0, 1)] :=
  ⟨rfl, by decide,
   (evtBox_payload_spec (fun _ => 7) 0 7 rfl (by decide)).1,
   (evtBox_payload_spec (fun _ => 7) 0 7 rfl (by decide)).2⟩

/-- C3 counterexample: payload() does not reject an overrunning declared
length. With every byte of the CS buffer equal to 255, the declared length
255 exceeds the buffer's 15-byte capacity, yet the returned view is the full
255 bytes starting at offset 11 — past the end of the buffer, with no decode
failure and no truncation. -/
theorem payload_unchecked_length_cex : ¬ payloadRejectsOverrun := by
  intro h
  have hx := h (fun _ => 255)
  simp [EvtBox.payload, EvtBox.new, payloadAddr, payloadLenAddr, CS_BUFFER_SIZE,
    TL_PACKET_HEADER_SIZE, TL_EVT_HEADER_SIZE, TL_CS_EVT_SIZE, structSize,
    CsEvt.fieldSizes] at hx

/-- C3 (corrected): on a malformed record whose declared payload length L
overruns the buffer capacity, the transport does not crash (payload and the
Drop path are total) and the handle is still reclaimed normally on
destruction, but the malformed length is not surfaced as a decode failure:
payload() performs no bounds check and returns the full L-byte view as if
valid. -/
theorem malformed_record_handling (s : MMState) (mem : Mem) (ptr cap L : Nat)
    (hL : mem (payloadLenAddr ptr) = L) (hoob : ptr + cap < payloadAddr ptr + L) :
    (EvtBox.lifecycle s ptr mem).reclaimed = s.reclaimed ++ [ptr] ∧
    ((EvtBox.new ptr).payload mem).1 = ⟨payloadAddr ptr, L⟩ := by
  subst hL
  exact ⟨rfl, rfl⟩

/-- Witness for C3 at the CS buffer filled with 255: declared length 255
overruns the 15-byte capacity, the handle is still reclaimed once, and the
view returned is the full declared length. -/
theorem malformed_record_handling_witness :
    ((fun _ => 255 : Mem) (payloadLenAddr 0) = 255) ∧
    (0 + CS_BUFFER_SIZE < payloadAddr 0 + 255) ∧
    ((EvtBox.lifecycle ⟨[]⟩ 0 (fun _ => 255)).reclaimed = ([] : List Nat) ++ [0] ∧
     ((EvtBox.new 0).payload (fun _ => 255)).1 = ⟨payloadAddr 0, 255⟩) :=
  ⟨rfl, by decide,
   malformed_record_handling ⟨[]⟩ (fun _ => 255) 0 CS_BUFFER_SIZE 255 rfl (by decide)⟩

/-- C4 counterexample: the claimed order (zero the per-subsystem tables, then
write the directory into the reference table) is false: in TlMbox::init the
directory write is the very first step (index 0) and the first zeroing write
comes after it (index 1), so no zeroing step precedes the directory write. -/
theorem init_order_cex :
    ¬ (tlMboxInit.findIdx isZeroStep < tlMboxInit.findIdx isWriteRefStep) ∧
    tlMboxInit.take 2 = [InitStep.writeRefTable refTableDir, InitStep.zeroTable TableId.sys] := by
  decide

/-- C4 (corrected): TlMbox::init first writes the directory of the tables'
addresses into the top-level reference table (one slot per subsystem table,
each slot receiving the address of its own subsystem's static table), then
zeroes every per-subsystem table and shared buffer (13 zeroing writes),
then issues the fence, and only after the fence arms the doorbell: no
IPCC/interrupt enable occurs before the fence, and the enables all follow it. -/
theorem init_sequence_spec :
    tlMboxInit.findIdx isWriteRefStep = 0 ∧
    (∀ p ∈ refTableDir, p.1 = p.2) ∧
    refTableDir.map Prod.fst =
      [TableId.deviceInfo, TableId.ble, TableId.thread, TableId.sys,
       TableId.memManager, TableId.traces, TableId.mac802_15_4] ∧
    ((tlMboxInit.drop 1).takeWhile isZeroStep).length = 13 ∧
    (∀ t ∈ [TableId.deviceInfo, TableId.ble, TableId.thread, TableId.sys,
            TableId.memManager, TableId.traces, TableId.mac802_15_4],
       InitStep.zeroTable t ∈ (tlMboxInit.drop 1).takeWhile isZeroStep) ∧
    tlMboxInit.findIdx isFenceStep = 14 ∧
    (∀ s ∈ tlMboxInit.take 14, isEnableStep s = false) ∧
    (tlMboxInit.drop 15).filter isEnableStep =
      [InitStep.ipccEnable, InitStep.enableRx, InitStep.enableTx] := by
  decide

/-- C5 (code_bug support): evaluating the code at the failing input. The view
obtained from payload() is a plain (address, length) value pointing at the
payload offset inside the buffer; dropping the handle then reclaims that
very buffer, yet — because the lifetime parameter of payload's signature is
unconstrained — nothing invalidates the view, which still designates bytes
inside the reclaimed region. -/
theorem payload_view_survives_reclaim :
    ((EvtBox.new 0).payload (fun _ => 42)).1 = ⟨payloadAddr 0, 42⟩ ∧
    (EvtBox.drop ⟨[]⟩ (EvtBox.new 0) (fun _ => 42)).reclaimed = [0] ∧
    payloadAddr 0 + 42 ≤ 0 + TL_PACKET_HEADER_SIZE + TL_BLE_EVENT_FRAME_SIZE := by
  refine ⟨rfl, rfl, ?_⟩
  decide

/-- C6 counterexample: the volatile read performed by the kind-reading
operation EvtBox::stub is not a single-byte read of the kind byte: its log
is one read of width EVT_STUB_SIZE = 2 at the kind address, not width 1. -/
theorem stub_read_width_cex :
    ¬ (((EvtBox.new 0).stub (fun _ => 0)).2 = [(kindAddr 0, 1)]) := by
  decide

/-- C6 (corrected): EvtBox::stub reads the kind discriminant via a single
volatile read of the two-byte EvtStub (kind then evt_code) at the kind
offset, and returns the value currently stored at the kind offset of the
record (together with the event code byte that follows it). -/
theorem stub_single_volatile_read_spec (mem : Mem) (ptr : Nat) :
    ((EvtBox.new ptr).stub mem).2 = [(kindAddr ptr, EVT_STUB_SIZE)] ∧
    ((EvtBox.new ptr).stub mem).1.kind = mem (kindAddr ptr) ∧
    ((EvtBox.new ptr).stub mem).1.evt_code = mem (kindAddr ptr + 1) :=
  ⟨rfl, rfl, rfl⟩

/-- C7 (confirmed): encoding a command record with opcode O and payload P of
length L (L at most the 255-byte maximum) and decoding the buffer yields
(O, L, P) unchanged; and writing a CcEvt into a sufficiently large buffer
and reinterpreting the buffer's first bytes as a CcEvt yields the same
num_cmd, cmd_code and payload fields. -/
theorem cmd_roundtrip (o : Nat) (p : List Nat) (cc : CcEvt) (buf out : List Nat)
    (ho : o < 65536) (hl : p.length ≤ 255) (hp : ∀ b ∈ p, b < 256)
    (h1 : cc.num_cmd < 256) (h2 : cc.cmd_code < 65536) (h3 : cc.payload0 < 256)
    (hw : CcEvt.write cc buf = some out) :
    decodeCmd (encodeCmd o p) = (o, p.length, p) ∧ CcEvt.deserialize out = cc := by
  constructor
  · have hmap : p.map (fun b => b % 256) = p := by
      have hcongr : ∀ b ∈ p, b % 256 = b := fun b hb => Nat.mod_eq_of_lt (hp b hb)
      calc p.map (fun b => b % 256) = p.map id := List.map_congr_left hcongr
        _ = p := List.map_id p
    have hlen : p.length % 256 = p.length := Nat.mod_eq_of_lt (by omega)
    have hdiv : o / 256 % 256 = o / 256 :=
      Nat.mod_eq_of_lt (Nat.div_lt_of_lt_mul (by omega))
    simp [decodeCmd, encodeCmd, hmap, hlen, hdiv, Nat.mod_add_div, List.take_length]
  · have hb : structSize CcEvt.fieldSizes ≤ buf.length := by
      by_contra hb
      unfold CcEvt.write at hw
      rw [if_neg hb] at hw
      simp at hw
    have hout : out = cc.serialize ++ buf.drop (structSize CcEvt.fieldSizes) := by
      unfold CcEvt.write at hw
      rw [if_pos hb] at hw
      exact (Option.some.inj hw).symm
    subst hout
    have hdiv : cc.cmd_code / 256 % 256 = cc.cmd_code / 256 :=
      Nat.mod_eq_of_lt (Nat.div_lt_of_lt_mul (by omega))
    simp [CcEvt.deserialize, CcEvt.serialize, Nat.mod_eq_of_lt h1, Nat.mod_eq_of_lt h3,
      hdiv, Nat.mod_add_div]

/-- Witness for C7 at opcode 0x0C03 (3075), payload [10, 20], and the CcEvt
with num_cmd 1, cmd_code 3075, payload byte 2 written into a 4-byte buffer. -/
theorem cmd_roundtrip_witness :
    (3075 : Nat) < 65536 ∧ ([10, 20] : List Nat).length ≤ 255 ∧
    (∀ b ∈ ([10, 20] : List Nat), b < 256) ∧
    (1 : Nat) < 256 ∧ (3075 : Nat) < 65536 ∧ (2 : Nat) < 256 ∧
    CcEvt.write ⟨1, 3075, 2⟩ [0, 0, 0, 0] = some [1, 3, 12, 2] ∧
    (decodeCmd (encodeCmd 3075 [10, 20]) = (3075, 2, [10, 20]) ∧
     CcEvt.deserialize [1, 3, 12, 2] = ⟨1, 3075, 2⟩) :=
  ⟨by decide, by decide, by decide, by decide, by decide, by decide, by decide,
   cmd_roundtrip 3075 [10, 20] ⟨1, 3075, 2⟩ [0, 0, 0, 0] [1, 3, 12, 2]
     (by decide) (by decide) (by decide) (by decide) (by decide) (by decide) (by decide)⟩

/-- C8 (confirmed): with the packed layout rule (size is the sum of the field
sizes, each field at the offset where the previous field ends, no padding):
size_of CsEvt = 4, size_of CcEvt = 4, size_of Evt = 3, size_of EvtSerial = 4,
TL_EVT_HEADER_SIZE = 3, and every field sits at its documented offset
(CsEvt 0/1/2, CcEvt 0/1/3, Evt 0/1/2, EvtSerial 0/1, AsynchEvt 0/2). -/
theorem wire_layout_spec :
    structSize CsEvt.fieldSizes = 4 ∧ structSize CcEvt.fieldSizes = 4 ∧
    structSize Evt.fieldSizes = 3 ∧ structSize EvtSerial.fieldSizes = 4 ∧
    TL_EVT_HEADER_SIZE = 3 ∧
    fieldOffsets CsEvt.fieldSizes = [0, 1, 2] ∧
    fieldOffsets CcEvt.fieldSizes = [0, 1, 3] ∧
    fieldOffsets Evt.fieldSizes = [0, 1, 2] ∧
    fieldOffsets EvtSerial.fieldSizes = [0, 1] ∧
    structSize AsynchEvt.fieldSizes = 3 ∧
    fieldOffsets AsynchEvt.fieldSizes = [0, 2] := by
  decide

/-- C9 (confirmed): POOL_SIZE is the transcribed formula and dominates the
queue length times the maximum frame size including the packet header, so
the arena holds the configured number of maximum-size event frames
(1340 is at least 5 times 266). -/
theorem pool_size_bound :
    POOL_SIZE =
      CFG_TLBLE_EVT_QUEUE_LENGTH * 4 *
        divc (TL_PACKET_HEADER_SIZE + TL_BLE_EVENT_FRAME_SIZE) 4 ∧
    POOL_SIZE ≥ CFG_TLBLE_EVT_QUEUE_LENGTH *
      (TL_PACKET_HEADER_SIZE + TL_EVT_HEADER_SIZE + CFG_TLBLE_MOST_EVENT_PAYLOAD_SIZE) := by
  decide

/-- C10 (confirmed): CcEvt::write fails the assert (panics) exactly when the
destination is shorter than size_of CcEvt = 4; otherwise it copies exactly
the record's 4 bytes into buf[0..4], leaves buf from index 4 on unchanged,
and preserves the buffer length. -/
theorem ccEvt_write_spec (cc : CcEvt) (buf : List Nat) :
    (CcEvt.write cc buf = none ↔ buf.length < 4) ∧
    ∀ out, CcEvt.write cc buf = some out →
      out.take 4 = cc.serialize ∧ out.drop 4 = buf.drop 4 ∧ out.length = buf.length := by
  have h4 : cc.serialize.length = 4 := rfl
  have hs : structSize CcEvt.fieldSizes = 4 := rfl
  unfold CcEvt.write
  rw [hs]
  by_cases hb : 4 ≤ buf.length
  · rw [if_pos hb]
    constructor
    · simp
      omega
    · intro out hout
      have hout2 : out = cc.serialize ++ buf.drop 4 := (Option.some.inj hout).symm
      subst hout2
      refine ⟨List.take_left' h4, List.drop_left' h4, ?_⟩
      rw [List.length_append, List.length_drop, h4]
      omega
  · rw [if_neg hb]
    constructor
    · simp
      omega
    · intro out hout
      simp at hout

/-- Witness for C10 at a 5-byte destination: the assert passes, the record's
4 bytes land at the front, and the fifth byte is untouched. -/
theorem ccEvt_write_spec_witness :
    CcEvt.write ⟨1, 3075, 2⟩ [9, 9, 9, 9, 9] = some [1, 3, 12, 2, 9] ∧
    ([1, 3, 12, 2, 9] : List Nat).take 4 = CcEvt.serialize ⟨1, 3075, 2⟩ ∧
    ([1, 3, 12, 2, 9] : List Nat).drop 4 = ([9, 9, 9, 9, 9] : List Nat).drop 4 ∧
    ([1, 3, 12, 2, 9] : List Nat).length = ([9, 9, 9, 9, 9] : List Nat).length :=
  ⟨by decide,
   (ccEvt_write_spec ⟨1, 3075, 2⟩ [9, 9, 9, 9, 9]).2 [1, 3, 12, 2, 9] (by decide)⟩
